import Mathlib

/-!
Verification of the elsa command-line module (src/elsa/_cli.py).

The module is modelled as a shallow embedding: the mutable Flask
application configuration and the instance attributes of the Elsa class
become an explicit state record that every operation threads through,
and the observable side effects (printing, registering routes, setting
the process-wide warning filter, invoking the renderer, invoking the
publisher) are recorded as an event trace.  Optional Python string
values are Option String, with Python truthiness made explicit.
-/

/-- Python truthiness of an optional string: None and the empty string
are falsy, every other string is truthy. -/
def truthy : Option String → Bool
  | none => false
  | some s => !(s == "")

/-- The Python expression a or b on optional string values: yields a
when a is truthy, otherwise b. -/
def pyOr (a b : Option String) : Option String :=
  if truthy a then a else b

/-- Characters permitted in a URL scheme after the initial letter,
following urllib.parse (letters, digits and the three marks). -/
def isSchemeChar (c : Char) : Bool :=
  c.isAlphanum || c == '+' || c == '-' || c == '.'

/-- Model of the scheme-stripping step of urllib.parse.urlsplit: when
the character list starts with a valid scheme followed by a colon, the
scheme and the colon are dropped, otherwise the list is unchanged. -/
def dropScheme (cs : List Char) : List Char :=
  match cs.findIdx? (fun c => c == ':') with
  | none => cs
  | some i =>
    if i == 0 then cs
    else
      match cs.take i with
      | [] => cs
      | c0 :: rest =>
        if c0.isAlpha && rest.all isSchemeChar then cs.drop (i + 1) else cs

/-- Model of urllib.parse.urlparse(url).netloc: after stripping a
scheme, the network location is present only when the remainder starts
with two slashes, and extends to the first slash, question mark or
hash. -/
def netlocOf (url : String) : String :=
  match dropScheme url.toList with
  | '/' :: '/' :: rest =>
    String.mk (rest.takeWhile (fun c => c != '/' && c != '?' && c != '#'))
  | _ => ""

/-- The keys of the shared Flask application configuration that
src/elsa/_cli.py reads or writes. -/
structure AppConfig where
  freezer_base_url : Option String
  freezer_destination : Option String
  server_name : Option String
  templates_auto_reload : Option Bool
  deriving DecidableEq, Repr

/-- The state an Elsa instance operates on: the shared application
configuration, the instance base_url given at construction, the Flask
root path (used by the --path click default), which routes have been
registered on the application, the process-wide warnings filter for
FrozenFlaskWarning, and the Jinja auto-reload flag touched by the
serve command. -/
structure ElsaState where
  config : AppConfig
  base_url : Option String
  root_path : String
  shutdown_route : Bool
  cname_route : Bool
  warn_filter_error : Bool
  jinja_auto_reload : Bool
  deriving DecidableEq, Repr

/-- Observable side effects of the module, in program order. -/
inductive Event where
  | setFilterError
  | printOut (s : String)
  | printErr (s : String)
  | freezerFreeze
  | warnMsg (s : String)
  | deprecationWarning
  | injectShutdown
  | injectCname
  | deployCall (path : Option String) (remote : String) (push : Bool) (show_err : Bool)
  | appRun (port : Nat)
  | serveCall (port : Nat)
  deriving DecidableEq, Repr

/-- Python exceptions raised by the freeze path: ValueError from the
configuration checks, and flask_frozen.FrozenFlaskWarning once the
warnings filter has escalated it to an error. -/
inductive PyError where
  | valueError (msg : String)
  | frozenFlaskWarning (msg : String)
  deriving DecidableEq, Repr

/-- Outcome of the external renderer (flask_frozen Freezer.freeze) on
the application being frozen: either every page renders cleanly, or
some inconsistency makes it emit a FrozenFlaskWarning. -/
inductive RenderOutcome where
  | ok
  | inconsistency (msg : String)
  deriving DecidableEq, Repr

/-- Semantics of calling freezer.freeze() under a given warnings
filter: a clean render succeeds; an inconsistency raises the warning
as an error when the filter escalates FrozenFlaskWarning, and merely
records a warning otherwise. -/
def freezerFreezeRun (filterError : Bool) (render : RenderOutcome) :
    List Event × Except PyError Unit :=
  match render with
  | RenderOutcome.ok => ([Event.freezerFreeze], Except.ok ())
  | RenderOutcome.inconsistency m =>
    if filterError then
      ([Event.freezerFreeze], Except.error (PyError.frozenFlaskWarning m))
    else
      ([Event.freezerFreeze, Event.warnMsg m], Except.ok ())

/-- The base_url resolution of Elsa.freeze: the explicit argument, or
the instance base_url, or the FREEZER_BASE_URL application config. -/
def Elsa.resolveBaseUrl (st : ElsaState) (base_url : Option String) : Option String :=
  pyOr (pyOr base_url st.base_url) st.config.freezer_base_url

/-- The path resolution of Elsa.freeze: the explicit argument, or the
FREEZER_DESTINATION application config. -/
def Elsa.resolvePath (st : ElsaState) (path : Option String) : Option String :=
  pyOr path st.config.freezer_destination

/-- Model of Elsa.freeze.  Resolves base_url, raises ValueError when it
is falsy, stores it in FREEZER_BASE_URL; resolves path, stores it in
FREEZER_DESTINATION, sets SERVER_NAME to the netloc of base_url, then
raises ValueError when path is falsy; finally escalates
FrozenFlaskWarning to an error, prints a progress line and invokes the
renderer. -/
def Elsa.freeze (render : RenderOutcome) (st : ElsaState)
    (path base_url : Option String) :
    ElsaState × List Event × Except PyError Unit :=
  let base_url := Elsa.resolveBaseUrl st base_url
  if truthy base_url = false then
    (st, [], Except.error (PyError.valueError "No base URL provided"))
  else
    let st1 : ElsaState :=
      { st with config := { st.config with freezer_base_url := base_url } }
    let path := Elsa.resolvePath st1 path
    let st2 : ElsaState :=
      { st1 with config := { st1.config with
          freezer_destination := path,
          server_name := some (netlocOf (base_url.getD "")) } }
    if truthy path = false then
      (st2, [], Except.error (PyError.valueError "No path provided"))
    else
      let st3 : ElsaState := { st2 with warn_filter_error := true }
      let r := freezerFreezeRun st3.warn_filter_error render
      (st3, Event.setFilterError :: Event.printOut "Generating HTML..." :: r.1, r.2)

/-- Results of running a command body: normal completion, sys.exit with
a code, a click UsageError (click exits non-zero), or an uncaught
Python exception. -/
inductive CmdResult where
  | ok
  | exited (code : Nat)
  | usageError (msg : String)
  | raised (e : PyError)
  deriving DecidableEq, Repr

/-- Model of Elsa.freeze_fail_exit: calls freeze, and on a
FrozenFlaskWarning prints the error to stderr and exits with code 1;
any other exception propagates. -/
def Elsa.freeze_fail_exit (render : RenderOutcome) (st : ElsaState)
    (path base_url : Option String) :
    ElsaState × List Event × CmdResult :=
  match Elsa.freeze render st path base_url with
  | (st1, ev, Except.ok _) => (st1, ev, CmdResult.ok)
  | (st1, ev, Except.error (PyError.frozenFlaskWarning m)) =>
    (st1, ev ++ [Event.printErr ("Error: " ++ m)], CmdResult.exited 1)
  | (st1, ev, Except.error e) => (st1, ev, CmdResult.raised e)

/-- Model of Elsa._inject_cname: registers the /CNAME route on the
application. -/
def Elsa.inject_cname (st : ElsaState) : ElsaState × List Event :=
  ({ st with cname_route := true }, [Event.injectCname])

/-- Model of Elsa._inject_shutdown: registers the shutdown route on the
application. -/
def Elsa.inject_shutdown (st : ElsaState) : ElsaState × List Event :=
  ({ st with shutdown_route := true }, [Event.injectShutdown])

/-- The response body of the /CNAME route when it is registered: the
route returns the SERVER_NAME application config entry.  Yields none
when the route was never registered on the application. -/
def cnameResponse (st : ElsaState) : Option (Option String) :=
  if st.cname_route then some st.config.server_name else none

/-- The class attribute Elsa.DEFAULT_PORT. -/
def Elsa.DEFAULT_PORT : Nat := 8003

/-- The class attribute Elsa.DEFAULT_REMOTE. -/
def Elsa.DEFAULT_REMOTE : String := "origin"

/-- The invocation that Elsa.deploy hands to the publisher (the
module-level deploy_ helper). -/
structure DeployCall where
  path : Option String
  remote : String
  push : Bool
  show_err : Bool
  deriving DecidableEq, Repr

/-- The keyword default of the push parameter in the signature of the
Elsa.deploy method. -/
def Elsa.deploy_default_push : Bool := false

/-- The keyword default of the show_err parameter in the signature of
the Elsa.deploy method. -/
def Elsa.deploy_default_show_err : Bool := false

/-- Model of the Elsa.deploy method: resolves path against the
FREEZER_DESTINATION config, resolves remote against DEFAULT_REMOTE,
and hands the tree to the publisher. -/
def Elsa.deploy (st : ElsaState) (path remote : Option String)
    (push show_err : Bool) : DeployCall :=
  { path := pyOr path st.config.freezer_destination
    remote := (pyOr remote (some Elsa.DEFAULT_REMOTE)).getD Elsa.DEFAULT_REMOTE
    push := push
    show_err := show_err }

/-- Model of os.path.join for a relative second component, as used by
the --path click option default. -/
def osPathJoin (a b : String) : String :=
  if a == "" then b
  else if a.endsWith "/" then a ++ b
  else a ++ "/" ++ b

/-- The click default of the --path option: the _build directory under
the application root path. -/
def Elsa.default_path (st : ElsaState) : String :=
  osPathJoin st.root_path "_build"

/-- Click option default resolution for an option-typed value: the
user-supplied value when the option was passed, otherwise the declared
default. -/
def clickOpt (user dflt : Option String) : Option String :=
  match user with
  | some s => some s
  | none => dflt

/-- Model of the serve cli command.  Optional arguments are none when
the user did not pass the option, in which case the click default
applies.  The body enables Jinja auto reload unless TEMPLATES_AUTO_RELOAD
is configured off, registers the shutdown route, registers the CNAME
route when --cname is in effect, and runs the debug server. -/
def serveCommand (st : ElsaState) (port : Option Nat) (cname : Option Bool) :
    ElsaState × List Event :=
  let port := port.getD Elsa.DEFAULT_PORT
  let cname := cname.getD true
  let auto_reload := st.config.templates_auto_reload
  let st := if auto_reload.getD true then { st with jinja_auto_reload := true } else st
  let s1 := Elsa.inject_shutdown st
  let s2 := if cname then Elsa.inject_cname s1.1 else (s1.1, [])
  (s2.1, s1.2 ++ s2.2 ++ [Event.appRun port])

/-- Model of the freeze cli command.  Click fills the defaults: --path
defaults to the _build directory, --base-url to the instance base_url,
--serve to off, --port to DEFAULT_PORT, --cname to on.  The body
registers the CNAME route when --cname is in effect, raises a
UsageError when the base url is falsy, calls freeze_fail_exit, and
serves the result when --serve is in effect. -/
def freezeCommand (render : RenderOutcome) (st : ElsaState)
    (path base_url : Option String) (serve : Option Bool)
    (port : Option Nat) (cname : Option Bool) :
    ElsaState × List Event × CmdResult :=
  let path := path.getD (Elsa.default_path st)
  let base_url := clickOpt base_url st.base_url
  let serve := serve.getD false
  let port := port.getD Elsa.DEFAULT_PORT
  let cname := cname.getD true
  let s1 := if cname then Elsa.inject_cname st else (st, [])
  if truthy base_url = false then
    (s1.1, s1.2, CmdResult.usageError "No base URL provided, use --base-url")
  else
    match Elsa.freeze_fail_exit render s1.1 (some path) base_url with
    | (st2, evF, CmdResult.ok) =>
      if serve then
        (st2, s1.2 ++ evF ++ [Event.serveCall port], CmdResult.ok)
      else
        (st2, s1.2 ++ evF, CmdResult.ok)
    | (st2, evF, r) => (st2, s1.2 ++ evF, r)

/-- Model of the deploy cli command.  Click fills the defaults: --path
defaults to the _build directory, --base-url to the instance base_url,
--remote to DEFAULT_REMOTE, the push option pair to None, --freeze to on,
--show-git-push-stderr (a flag) to off, --cname to on.  When push was
left unspecified the body emits a DeprecationWarning and assumes
--push.  When freezing is in effect it registers the CNAME route,
raises a UsageError on a falsy base url and calls freeze_fail_exit;
then it hands the tree to the publisher. -/
def deployCommand (render : RenderOutcome) (st : ElsaState)
    (path base_url remote : Option String) (push : Option Bool)
    (freeze : Option Bool) (show_git_push_stderr : Bool)
    (cname : Option Bool) :
    ElsaState × List Event × CmdResult :=
  let path := path.getD (Elsa.default_path st)
  let base_url := clickOpt base_url st.base_url
  let remote := remote.getD Elsa.DEFAULT_REMOTE
  let freeze := freeze.getD true
  let cname := cname.getD true
  let pd : Bool × List Event := match push with
    | none => (true, [Event.deprecationWarning])
    | some b => (b, [])
  if freeze then
    let s1 := if cname then Elsa.inject_cname st else (st, [])
    if truthy base_url = false then
      (s1.1, pd.2 ++ s1.2, CmdResult.usageError "No base URL provided, use --base-url")
    else
      match Elsa.freeze_fail_exit render s1.1 (some path) base_url with
      | (st2, evF, CmdResult.ok) =>
        (st2, pd.2 ++ s1.2 ++ evF ++
          [Event.deployCall (some path) remote pd.1 show_git_push_stderr],
          CmdResult.ok)
      | (st2, evF, r) => (st2, pd.2 ++ s1.2 ++ evF, r)
  else
    (st, pd.2 ++ [Event.deployCall (some path) remote pd.1 show_git_push_stderr],
      CmdResult.ok)

/-- A concrete application state with nothing configured, used to
exercise the theorems on concrete inputs. -/
def stEmpty : ElsaState :=
  { config := { freezer_base_url := none, freezer_destination := none,
                server_name := none, templates_auto_reload := none }
    base_url := none
    root_path := "/app"
    shutdown_route := false
    cname_route := false
    warn_filter_error := false
    jinja_auto_reload := false }

/-- A concrete application state whose Elsa instance was given a base
url at construction time. -/
def stDemo : ElsaState :=
  { stEmpty with base_url := some "https://example.org/stuff" }

/-- A state with a construction-time base url whose CNAME route has
been registered, used to exercise the CNAME theorem concretely. -/
def stCname : ElsaState := { stDemo with cname_route := true }

/-- The click default of the --show-git-push-stderr flag: click flags
are off unless passed on the command line. -/
def show_git_push_stderr_cli_default : Bool := false

/-- Writing FREEZER_BASE_URL does not change how the destination path
resolves. -/
theorem resolvePath_config_base (st : ElsaState) (b p : Option String) :
    Elsa.resolvePath
        { st with config := { st.config with freezer_base_url := b } } p =
      Elsa.resolvePath st p := rfl

/-- C1: whenever the resolved base url is falsy (no truthy explicit
argument, instance base url, or FREEZER_BASE_URL config) or the
resolved destination path is falsy (no truthy argument or
FREEZER_DESTINATION config), Elsa.freeze fails with a configuration
ValueError and the renderer freezer.freeze is never invoked. -/
theorem C1_freeze_validates_before_render (render : RenderOutcome)
    (st : ElsaState) (path base_url : Option String)
    (h : truthy (Elsa.resolveBaseUrl st base_url) = false ∨
         truthy (Elsa.resolvePath st path) = false) :
    (∃ m, (Elsa.freeze render st path base_url).2.2 =
        Except.error (PyError.valueError m)) ∧
    Event.freezerFreeze ∉ (Elsa.freeze render st path base_url).2.1 := by
  by_cases hb : truthy (Elsa.resolveBaseUrl st base_url) = false
  · simp [Elsa.freeze, hb]
  · have hp : truthy (Elsa.resolvePath st path) = false := by
      rcases h with h | h
      · exact absurd h hb
      · exact h
    rw [Bool.not_eq_false] at hb
    simp [Elsa.freeze, hb, resolvePath_config_base, hp]

/-- C1 witness: on the unconfigured state Elsa.freeze fails with a
ValueError and without invoking the renderer. -/
theorem C1_freeze_validates_before_render_witness :
    (∃ m, (Elsa.freeze RenderOutcome.ok stEmpty none none).2.2 =
        Except.error (PyError.valueError m)) ∧
    Event.freezerFreeze ∉ (Elsa.freeze RenderOutcome.ok stEmpty none none).2.1 :=
  C1_freeze_validates_before_render RenderOutcome.ok stEmpty none none
    (Or.inl (by decide))

/-- C2: with a truthy resolved base url and path, Elsa.freeze escalates
FrozenFlaskWarning to an error before invoking the renderer (the
filter event precedes the freezer.freeze event in the trace, and the
warnings filter is set in the resulting state), so a render
inconsistency aborts the freeze as the escalated warning instead of
completing with a recorded warning. -/
theorem C2_warning_escalated_before_render (render : RenderOutcome)
    (st : ElsaState) (path base_url : Option String)
    (hb : truthy (Elsa.resolveBaseUrl st base_url) = true)
    (hp : truthy (Elsa.resolvePath st path) = true) :
    (Elsa.freeze render st path base_url).2.1 =
      [Event.setFilterError, Event.printOut "Generating HTML...",
        Event.freezerFreeze] ∧
    (Elsa.freeze render st path base_url).1.warn_filter_error = true ∧
    (∀ m, render = RenderOutcome.inconsistency m →
      (Elsa.freeze render st path base_url).2.2 =
        Except.error (PyError.frozenFlaskWarning m) ∧
      Event.warnMsg m ∉ (Elsa.freeze render st path base_url).2.1) := by
  cases render <;>
    simp [Elsa.freeze, hb, resolvePath_config_base, hp, freezerFreezeRun]

/-- C2 witness: a concrete freeze with an inconsistent render aborts as
the escalated warning. -/
theorem C2_warning_escalated_before_render_witness :
    (Elsa.freeze (RenderOutcome.inconsistency "broken link") stEmpty
        (some "_build") (some "https://example.org")).2.1 =
      [Event.setFilterError, Event.printOut "Generating HTML...",
        Event.freezerFreeze] ∧
    (Elsa.freeze (RenderOutcome.inconsistency "broken link") stEmpty
        (some "_build") (some "https://example.org")).1.warn_filter_error = true ∧
    (∀ m, RenderOutcome.inconsistency "broken link" =
        RenderOutcome.inconsistency m →
      (Elsa.freeze (RenderOutcome.inconsistency "broken link") stEmpty
          (some "_build") (some "https://example.org")).2.2 =
        Except.error (PyError.frozenFlaskWarning m) ∧
      Event.warnMsg m ∉ (Elsa.freeze (RenderOutcome.inconsistency "broken link")
          stEmpty (some "_build") (some "https://example.org")).2.1) :=
  C2_warning_escalated_before_render (RenderOutcome.inconsistency "broken link")
    stEmpty (some "_build") (some "https://example.org") (by decide) (by decide)

/-- C3: when the render raises an escalated FrozenFlaskWarning,
freeze_fail_exit prints the error to stderr and exits with code 1. -/
theorem C3_fail_exit_on_broken_link (m : String) (st : ElsaState)
    (path base_url : Option String)
    (hb : truthy (Elsa.resolveBaseUrl st base_url) = true)
    (hp : truthy (Elsa.resolvePath st path) = true) :
    (Elsa.freeze_fail_exit (RenderOutcome.inconsistency m) st path base_url).2.2 =
      CmdResult.exited 1 ∧
    Event.printErr ("Error: " ++ m) ∈
      (Elsa.freeze_fail_exit (RenderOutcome.inconsistency m) st path base_url).2.1 := by
  simp [Elsa.freeze_fail_exit, Elsa.freeze, hb, resolvePath_config_base, hp,
    freezerFreezeRun]

/-- C3 witness: a concrete broken-link freeze run exits with code 1
after printing the error. -/
theorem C3_fail_exit_on_broken_link_witness :
    (Elsa.freeze_fail_exit (RenderOutcome.inconsistency "oops") stEmpty
        (some "_build") (some "https://example.org")).2.2 = CmdResult.exited 1 ∧
    Event.printErr ("Error: " ++ "oops") ∈
      (Elsa.freeze_fail_exit (RenderOutcome.inconsistency "oops") stEmpty
        (some "_build") (some "https://example.org")).2.1 :=
  C3_fail_exit_on_broken_link "oops" stEmpty (some "_build")
    (some "https://example.org") (by decide) (by decide)

/-- C4: whenever the base url check of Elsa.freeze passes, SERVER_NAME
is set to the network location of the resolved base url, and the CNAME
route (when registered) serves exactly that configured host name. -/
theorem C4_server_name_from_base_url (render : RenderOutcome)
    (st : ElsaState) (path base_url : Option String)
    (hb : truthy (Elsa.resolveBaseUrl st base_url) = true) :
    (Elsa.freeze render st path base_url).1.config.server_name =
      some (netlocOf ((Elsa.resolveBaseUrl st base_url).getD "")) ∧
    (st.cname_route = true →
      cnameResponse (Elsa.freeze render st path base_url).1 =
        some (some (netlocOf ((Elsa.resolveBaseUrl st base_url).getD "")))) := by
  by_cases hp : truthy (Elsa.resolvePath st path) = true
  · cases render <;>
      simp [Elsa.freeze, hb, resolvePath_config_base, hp, freezerFreezeRun,
        cnameResponse]
  · rw [Bool.not_eq_true] at hp
    simp [Elsa.freeze, hb, resolvePath_config_base, hp, cnameResponse]

/-- C4 witness: freezing with base url https followed by
example.org/stuff configures the host example.org, and the registered
CNAME route serves it. -/
theorem C4_server_name_from_base_url_witness :
    (Elsa.freeze RenderOutcome.ok stCname (some "_build") none).1.config.server_name =
      some (netlocOf ((Elsa.resolveBaseUrl stCname none).getD "")) ∧
    (stCname.cname_route = true →
      cnameResponse (Elsa.freeze RenderOutcome.ok stCname (some "_build") none).1 =
        some (some (netlocOf ((Elsa.resolveBaseUrl stCname none).getD "")))) :=
  C4_server_name_from_base_url RenderOutcome.ok stCname (some "_build") none
    (by decide)

/-- C9: with a truthy resolved base url and a falsy resolved path,
Elsa.freeze raises the path ValueError only after having already
written FREEZER_BASE_URL, FREEZER_DESTINATION (to the falsy resolved
value) and SERVER_NAME into the shared configuration, so those
mutations survive the failed call. -/
theorem C9_config_mutated_before_path_error (render : RenderOutcome)
    (st : ElsaState) (path base_url : Option String)
    (hb : truthy (Elsa.resolveBaseUrl st base_url) = true)
    (hp : truthy (Elsa.resolvePath st path) = false) :
    (Elsa.freeze render st path base_url).2.2 =
      Except.error (PyError.valueError "No path provided") ∧
    (Elsa.freeze render st path base_url).1.config.freezer_base_url =
      Elsa.resolveBaseUrl st base_url ∧
    (Elsa.freeze render st path base_url).1.config.freezer_destination =
      Elsa.resolvePath st path ∧
    (Elsa.freeze render st path base_url).1.config.server_name =
      some (netlocOf ((Elsa.resolveBaseUrl st base_url).getD "")) := by
  simp [Elsa.freeze, hb, resolvePath_config_base, hp]

/-- C9 witness: a concrete freeze with a base url but no path fails and
leaves the three configuration entries mutated. -/
theorem C9_config_mutated_before_path_error_witness :
    (Elsa.freeze RenderOutcome.ok stDemo none none).2.2 =
      Except.error (PyError.valueError "No path provided") ∧
    (Elsa.freeze RenderOutcome.ok stDemo none none).1.config.freezer_base_url =
      Elsa.resolveBaseUrl stDemo none ∧
    (Elsa.freeze RenderOutcome.ok stDemo none none).1.config.freezer_destination =
      Elsa.resolvePath stDemo none ∧
    (Elsa.freeze RenderOutcome.ok stDemo none none).1.config.server_name =
      some (netlocOf ((Elsa.resolveBaseUrl stDemo none).getD "")) :=
  C9_config_mutated_before_path_error RenderOutcome.ok stDemo none none
    (by decide) (by decide)

/-- C10: the effective base url of Elsa.freeze follows the fixed
precedence explicit argument, then instance base url, then
FREEZER_BASE_URL config; the effective path is the explicit argument,
then FREEZER_DESTINATION config; and a freeze that passes the base url
check stores exactly these resolved values in the configuration. -/
theorem C10_resolution_precedence (render : RenderOutcome) (st : ElsaState)
    (path base_url : Option String) :
    Elsa.resolveBaseUrl st base_url =
      (if truthy base_url then base_url
       else if truthy st.base_url then st.base_url
       else st.config.freezer_base_url) ∧
    Elsa.resolvePath st path =
      (if truthy path then path else st.config.freezer_destination) ∧
    (truthy (Elsa.resolveBaseUrl st base_url) = true →
      (Elsa.freeze render st path base_url).1.config.freezer_base_url =
        Elsa.resolveBaseUrl st base_url ∧
      (Elsa.freeze render st path base_url).1.config.freezer_destination =
        Elsa.resolvePath st path) := by
  refine ⟨?_, ?_, ?_⟩
  · by_cases ha : truthy base_url <;>
      by_cases hi : truthy st.base_url <;>
        simp [Elsa.resolveBaseUrl, pyOr, ha, hi]
  · by_cases ha : truthy path <;> simp [Elsa.resolvePath, pyOr, ha]
  · intro hb
    by_cases hp : truthy (Elsa.resolvePath st path) = true
    · cases render <;>
        simp [Elsa.freeze, hb, resolvePath_config_base, hp, freezerFreezeRun]
    · rw [Bool.not_eq_true] at hp
      simp [Elsa.freeze, hb, resolvePath_config_base, hp]

/-- C10 witness: on a concrete state with an instance base url and no
explicit argument, the precedence chain and the stored configuration
agree. -/
theorem C10_resolution_precedence_witness :
    Elsa.resolveBaseUrl stDemo none =
      (if truthy none then none
       else if truthy stDemo.base_url then stDemo.base_url
       else stDemo.config.freezer_base_url) ∧
    Elsa.resolvePath stDemo (some "_build") =
      (if truthy (some "_build") then some "_build"
       else stDemo.config.freezer_destination) ∧
    (truthy (Elsa.resolveBaseUrl stDemo none) = true →
      (Elsa.freeze RenderOutcome.ok stDemo (some "_build") none).1.config.freezer_base_url =
        Elsa.resolveBaseUrl stDemo none ∧
      (Elsa.freeze RenderOutcome.ok stDemo (some "_build") none).1.config.freezer_destination =
        Elsa.resolvePath stDemo (some "_build")) :=
  C10_resolution_precedence RenderOutcome.ok stDemo (some "_build") none

/-- Every event of Elsa.freeze is a filter, print, render or warning
event; in particular freeze registers no routes and publishes
nothing. -/
theorem freeze_event_cases (render : RenderOutcome) (st : ElsaState)
    (path base_url : Option String) :
    ∀ e ∈ (Elsa.freeze render st path base_url).2.1,
      e = Event.setFilterError ∨ (∃ s, e = Event.printOut s) ∨
      e = Event.freezerFreeze ∨ (∃ s, e = Event.warnMsg s) := by
  by_cases hb : truthy (Elsa.resolveBaseUrl st base_url) = false
  · simp [Elsa.freeze, hb]
  · rw [Bool.not_eq_false] at hb
    by_cases hp : truthy (Elsa.resolvePath st path) = false
    · simp [Elsa.freeze, hb, resolvePath_config_base, hp]
    · rw [Bool.not_eq_false] at hp
      cases render <;>
        simp [Elsa.freeze, hb, resolvePath_config_base, hp, freezerFreezeRun]

/-- Elsa.freeze leaves the registered routes of the application
unchanged. -/
theorem freeze_preserves_routes (render : RenderOutcome) (st : ElsaState)
    (path base_url : Option String) :
    (Elsa.freeze render st path base_url).1.shutdown_route = st.shutdown_route ∧
    (Elsa.freeze render st path base_url).1.cname_route = st.cname_route := by
  by_cases hb : truthy (Elsa.resolveBaseUrl st base_url) = false
  · simp [Elsa.freeze, hb]
  · rw [Bool.not_eq_false] at hb
    by_cases hp : truthy (Elsa.resolvePath st path) = false
    · simp [Elsa.freeze, hb, resolvePath_config_base, hp]
    · rw [Bool.not_eq_false] at hp
      cases render <;>
        simp [Elsa.freeze, hb, resolvePath_config_base, hp, freezerFreezeRun]

/-- Every event of Elsa.freeze_fail_exit is a filter, print, render,
warning or stderr event. -/
theorem ffe_event_cases (render : RenderOutcome) (st : ElsaState)
    (path base_url : Option String) :
    ∀ e ∈ (Elsa.freeze_fail_exit render st path base_url).2.1,
      e = Event.setFilterError ∨ (∃ s, e = Event.printOut s) ∨
      e = Event.freezerFreeze ∨ (∃ s, e = Event.warnMsg s) ∨
      (∃ s, e = Event.printErr s) := by
  have h := freeze_event_cases render st path base_url
  unfold Elsa.freeze_fail_exit
  rcases hf : Elsa.freeze render st path base_url with ⟨st1, ev, res⟩
  rw [hf] at h
  cases res with
  | ok u =>
    intro e he
    rcases h e he with h1 | h1 | h1 | h1 <;> simp [h1]
  | error e0 =>
    cases e0 with
    | valueError m =>
      intro e he
      rcases h e he with h1 | h1 | h1 | h1 <;> simp [h1]
    | frozenFlaskWarning m =>
      intro e he
      simp only [List.mem_append, List.mem_singleton] at he
      rcases he with he | he
      · rcases h e he with h1 | h1 | h1 | h1 <;> simp [h1]
      · simp [he]

/-- Elsa.freeze_fail_exit leaves the registered routes of the
application unchanged. -/
theorem ffe_preserves_routes (render : RenderOutcome) (st : ElsaState)
    (path base_url : Option String) :
    (Elsa.freeze_fail_exit render st path base_url).1.shutdown_route =
      st.shutdown_route ∧
    (Elsa.freeze_fail_exit render st path base_url).1.cname_route =
      st.cname_route := by
  have h := freeze_preserves_routes render st path base_url
  unfold Elsa.freeze_fail_exit
  rcases hf : Elsa.freeze render st path base_url with ⟨st1, ev, res⟩
  rw [hf] at h
  cases res with
  | ok u => simpa using h
  | error e0 => cases e0 <;> simpa using h

/-- Every event of the freeze cli command is a CNAME registration, a
filter, print, render, warning or stderr event, or the final serve
call. -/
theorem freezeCommand_event_cases (render : RenderOutcome) (st : ElsaState)
    (path base_url : Option String) (serve : Option Bool) (port : Option Nat)
    (cname : Option Bool) :
    ∀ e ∈ (freezeCommand render st path base_url serve port cname).2.1,
      e = Event.injectCname ∨ e = Event.setFilterError ∨
      (∃ s, e = Event.printOut s) ∨ e = Event.freezerFreeze ∨
      (∃ s, e = Event.warnMsg s) ∨ (∃ s, e = Event.printErr s) ∨
      (∃ n, e = Event.serveCall n) := by
  have hs1 : ∀ x ∈ (if cname.getD true then Elsa.inject_cname st
      else (st, [])).2, x = Event.injectCname := by
    rcases Bool.eq_false_or_eq_true (cname.getD true) with hc | hc <;>
      simp [hc, Elsa.inject_cname]
  intro e he
  unfold freezeCommand at he
  dsimp only at he
  split at he
  · exact Or.inl (hs1 e he)
  · have hev := ffe_event_cases render
      (if cname.getD true then Elsa.inject_cname st else (st, [])).1
      (some (path.getD (Elsa.default_path st)))
      (clickOpt base_url st.base_url)
    split at he
    case _ st2 evF heq =>
      rw [heq] at hev
      split at he
      · dsimp only at he
        simp only [List.mem_append, List.mem_singleton] at he
        rcases he with (he | he) | he
        · exact Or.inl (hs1 e he)
        · rcases hev e he with h1 | h1 | h1 | h1 | h1 <;> simp [h1]
        · simp [he]
      · dsimp only at he
        simp only [List.mem_append] at he
        rcases he with he | he
        · exact Or.inl (hs1 e he)
        · rcases hev e he with h1 | h1 | h1 | h1 | h1 <;> simp [h1]
    case _ st2 evF r hne heq =>
      rw [heq] at hev
      dsimp only at he
      simp only [List.mem_append] at he
      rcases he with he | he
      · exact Or.inl (hs1 e he)
      · rcases hev e he with h1 | h1 | h1 | h1 | h1 <;> simp [h1]

/-- The freeze cli command never changes the shutdown route. -/
theorem freezeCommand_shutdown_route (render : RenderOutcome) (st : ElsaState)
    (path base_url : Option String) (serve : Option Bool) (port : Option Nat)
    (cname : Option Bool) :
    (freezeCommand render st path base_url serve port cname).1.shutdown_route =
      st.shutdown_route := by
  have hs1 : (if cname.getD true then Elsa.inject_cname st
      else (st, [])).1.shutdown_route = st.shutdown_route := by
    rcases Bool.eq_false_or_eq_true (cname.getD true) with hc | hc <;>
      simp [hc, Elsa.inject_cname]
  have hffe := ffe_preserves_routes render
    (if cname.getD true then Elsa.inject_cname st else (st, [])).1
    (some (path.getD (Elsa.default_path st))) (clickOpt base_url st.base_url)
  unfold freezeCommand
  dsimp only
  split
  · exact hs1
  · split
    case _ st2 evF heq =>
      rw [heq] at hffe
      split <;> dsimp only <;> exact hffe.1.trans hs1
    case _ st2 evF r hne heq =>
      rw [heq] at hffe
      exact hffe.1.trans hs1

/-- Every event of the deploy cli command is the deprecation warning, a
CNAME registration, a freeze-phase event or the publisher call. -/
theorem deployCommand_event_cases (render : RenderOutcome) (st : ElsaState)
    (path base_url remote : Option String) (push : Option Bool)
    (freeze : Option Bool) (sg : Bool) (cname : Option Bool) :
    ∀ e ∈ (deployCommand render st path base_url remote push freeze sg cname).2.1,
      e = Event.deprecationWarning ∨ e = Event.injectCname ∨
      e = Event.setFilterError ∨ (∃ s, e = Event.printOut s) ∨
      e = Event.freezerFreeze ∨ (∃ s, e = Event.warnMsg s) ∨
      (∃ s, e = Event.printErr s) ∨
      (∃ q rm pu se, e = Event.deployCall q rm pu se) := by
  have hs1 : ∀ x ∈ (if cname.getD true then Elsa.inject_cname st
      else (st, [])).2, x = Event.injectCname := by
    rcases Bool.eq_false_or_eq_true (cname.getD true) with hc | hc <;>
      simp [hc, Elsa.inject_cname]
  have hpd : ∀ x ∈ (match push with
      | none => ((true : Bool), [Event.deprecationWarning])
      | some b => (b, [])).2, x = Event.deprecationWarning := by
    cases push <;> simp
  intro e he
  unfold deployCommand at he
  dsimp only at he
  split at he
  · have hev := ffe_event_cases render
      (if cname.getD true then Elsa.inject_cname st else (st, [])).1
      (some (path.getD (Elsa.default_path st)))
      (clickOpt base_url st.base_url)
    split at he
    · simp only [List.mem_append] at he
      rcases he with he | he
      · exact Or.inl (hpd e he)
      · exact Or.inr (Or.inl (hs1 e he))
    · split at he
      case _ st2 evF heq =>
        rw [heq] at hev
        dsimp only at he
        simp only [List.mem_append, List.mem_singleton] at he
        rcases he with ((he | he) | he) | he
        · exact Or.inl (hpd e he)
        · exact Or.inr (Or.inl (hs1 e he))
        · rcases hev e he with h1 | h1 | h1 | h1 | h1 <;> simp [h1]
        · simp [he]
      case _ st2 evF r hne heq =>
        rw [heq] at hev
        dsimp only at he
        simp only [List.mem_append] at he
        rcases he with (he | he) | he
        · exact Or.inl (hpd e he)
        · exact Or.inr (Or.inl (hs1 e he))
        · rcases hev e he with h1 | h1 | h1 | h1 | h1 <;> simp [h1]
  · dsimp only at he
    simp only [List.mem_append, List.mem_singleton] at he
    rcases he with he | he
    · exact Or.inl (hpd e he)
    · simp [he]

/-- The deploy cli command never changes the shutdown route. -/
theorem deployCommand_shutdown_route (render : RenderOutcome) (st : ElsaState)
    (path base_url remote : Option String) (push : Option Bool)
    (freeze : Option Bool) (sg : Bool) (cname : Option Bool) :
    (deployCommand render st path base_url remote push freeze sg cname).1.shutdown_route =
      st.shutdown_route := by
  have hs1 : (if cname.getD true then Elsa.inject_cname st
      else (st, [])).1.shutdown_route = st.shutdown_route := by
    rcases Bool.eq_false_or_eq_true (cname.getD true) with hc | hc <;>
      simp [hc, Elsa.inject_cname]
  have hffe := ffe_preserves_routes render
    (if cname.getD true then Elsa.inject_cname st else (st, [])).1
    (some (path.getD (Elsa.default_path st))) (clickOpt base_url st.base_url)
  unfold deployCommand
  dsimp only
  split
  · split
    · exact hs1
    · split
      case _ st2 evF heq =>
        rw [heq] at hffe
        exact hffe.1.trans hs1
      case _ st2 evF r hne heq =>
        rw [heq] at hffe
        exact hffe.1.trans hs1
  · rfl

/-- The serve cli command registers the shutdown route and records the
registration in its trace. -/
theorem serveCommand_shutdown (st : ElsaState) (port : Option Nat)
    (cname : Option Bool) :
    Event.injectShutdown ∈ (serveCommand st port cname).2 ∧
    (serveCommand st port cname).1.shutdown_route = true := by
  unfold serveCommand
  dsimp only
  rcases Bool.eq_false_or_eq_true (cname.getD true) with hc | hc <;>
    rcases Bool.eq_false_or_eq_true ((st.config.templates_auto_reload).getD true)
      with ha | ha <;>
    simp [hc, ha, Elsa.inject_shutdown, Elsa.inject_cname]

/-- C6: the shutdown endpoint is attached exactly by the serve cli
command; the freeze and deploy cli commands never attach it (no
registration event in their traces and the route flag is unchanged),
while serve always attaches it. -/
theorem C6_shutdown_only_when_served (render : RenderOutcome) (st : ElsaState)
    (path base_url remote : Option String) (serve : Option Bool)
    (port port2 : Option Nat) (cname cname2 cname3 : Option Bool)
    (push freeze : Option Bool) (sg : Bool) :
    (Event.injectShutdown ∉
        (freezeCommand render st path base_url serve port cname).2.1 ∧
      (freezeCommand render st path base_url serve port cname).1.shutdown_route =
        st.shutdown_route) ∧
    (Event.injectShutdown ∉
        (deployCommand render st path base_url remote push freeze sg cname2).2.1 ∧
      (deployCommand render st path base_url remote push freeze sg cname2).1.shutdown_route =
        st.shutdown_route) ∧
    (Event.injectShutdown ∈ (serveCommand st port2 cname3).2 ∧
      (serveCommand st port2 cname3).1.shutdown_route = true) := by
  refine ⟨⟨?_, freezeCommand_shutdown_route render st path base_url serve port cname⟩,
    ⟨?_, deployCommand_shutdown_route render st path base_url remote push freeze sg cname2⟩,
    serveCommand_shutdown st port2 cname3⟩
  · intro hmem
    rcases freezeCommand_event_cases render st path base_url serve port cname
      _ hmem with h | h | h | h | h | h | h <;> simp at h
  · intro hmem
    rcases deployCommand_event_cases render st path base_url remote push freeze
      sg cname2 _ hmem with h | h | h | h | h | h | h | h <;> simp at h

/-- C6 witness: on the concrete unconfigured state, freeze and deploy
leave the shutdown route unregistered while serve registers it. -/
theorem C6_shutdown_only_when_served_witness :
    (Event.injectShutdown ∉
        (freezeCommand RenderOutcome.ok stEmpty none none none none none).2.1 ∧
      (freezeCommand RenderOutcome.ok stEmpty none none none none none).1.shutdown_route =
        stEmpty.shutdown_route) ∧
    (Event.injectShutdown ∉
        (deployCommand RenderOutcome.ok stEmpty none none none none none false none).2.1 ∧
      (deployCommand RenderOutcome.ok stEmpty none none none none none false none).1.shutdown_route =
        stEmpty.shutdown_route) ∧
    (Event.injectShutdown ∈ (serveCommand stEmpty none none).2 ∧
      (serveCommand stEmpty none none).1.shutdown_route = true) :=
  C6_shutdown_only_when_served RenderOutcome.ok stEmpty none none none none
    none none none none none none none false

/-- Every publisher invocation recorded by the deploy cli command
carries exactly the resolved path, the resolved remote, the push value
after the deprecation fallback, and the stderr-visibility flag as
given on the command line. -/
theorem deployCommand_deployCall (render : RenderOutcome) (st : ElsaState)
    (path base_url remote : Option String) (push : Option Bool)
    (freeze : Option Bool) (sg : Bool) (cname : Option Bool) :
    ∀ q rm pu se, Event.deployCall q rm pu se ∈
        (deployCommand render st path base_url remote push freeze sg cname).2.1 →
      q = some (path.getD (Elsa.default_path st)) ∧
      rm = remote.getD Elsa.DEFAULT_REMOTE ∧
      pu = (match push with | none => true | some b => b) ∧
      se = sg := by
  have hs1 : ∀ x ∈ (if cname.getD true then Elsa.inject_cname st
      else (st, [])).2, x = Event.injectCname := by
    rcases Bool.eq_false_or_eq_true (cname.getD true) with hc | hc <;>
      simp [hc, Elsa.inject_cname]
  have hpd : ∀ x ∈ (match push with
      | none => ((true : Bool), [Event.deprecationWarning])
      | some b => (b, [])).2, x = Event.deprecationWarning := by
    cases push <;> simp
  intro q rm pu se he
  unfold deployCommand at he
  dsimp only at he
  split at he
  · have hev := ffe_event_cases render
      (if cname.getD true then Elsa.inject_cname st else (st, [])).1
      (some (path.getD (Elsa.default_path st)))
      (clickOpt base_url st.base_url)
    split at he
    · simp only [List.mem_append] at he
      rcases he with he | he
      · exact absurd (hpd _ he) (by simp)
      · exact absurd (hs1 _ he) (by simp)
    · split at he
      case _ st2 evF heq =>
        rw [heq] at hev
        dsimp only at he
        simp only [List.mem_append, List.mem_singleton] at he
        rcases he with ((he | he) | he) | he
        · exact absurd (hpd _ he) (by simp)
        · exact absurd (hs1 _ he) (by simp)
        · rcases hev _ he with h1 | h1 | h1 | h1 | h1 <;> simp at h1
        · rw [Event.deployCall.injEq] at he
          rcases he with ⟨h1, h2, h3, h4⟩
          refine ⟨h1, h2, ?_, h4⟩
          cases push <;> simpa using h3
      case _ st2 evF r hne heq =>
        rw [heq] at hev
        dsimp only at he
        simp only [List.mem_append] at he
        rcases he with (he | he) | he
        · exact absurd (hpd _ he) (by simp)
        · exact absurd (hs1 _ he) (by simp)
        · rcases hev _ he with h1 | h1 | h1 | h1 | h1 <;> simp at h1
  · dsimp only at he
    simp only [List.mem_append, List.mem_singleton] at he
    rcases he with he | he
    · exact absurd (hpd _ he) (by simp)
    · rw [Event.deployCall.injEq] at he
      rcases he with ⟨h1, h2, h3, h4⟩
      refine ⟨h1, h2, ?_, h4⟩
      cases push <;> simpa using h3

/-- When push is left unspecified the deploy cli command records the
deprecation warning, whatever else happens. -/
theorem deployCommand_deprecation (render : RenderOutcome) (st : ElsaState)
    (path base_url remote : Option String) (freeze : Option Bool) (sg : Bool)
    (cname : Option Bool) :
    Event.deprecationWarning ∈
      (deployCommand render st path base_url remote none freeze sg cname).2.1 := by
  unfold deployCommand
  dsimp only
  split
  · split
    · simp
    · split <;> simp
  · simp

/-- C5: a deploy cli invocation without the push option emits the
deprecation warning, every publisher invocation it makes pushes, and
with freezing disabled the publisher is in fact invoked with push. -/
theorem C5_push_defaults_to_true (render : RenderOutcome) (st : ElsaState)
    (path base_url remote : Option String) (freeze : Option Bool) (sg : Bool)
    (cname : Option Bool) :
    Event.deprecationWarning ∈
      (deployCommand render st path base_url remote none freeze sg cname).2.1 ∧
    (∀ q rm pu se, Event.deployCall q rm pu se ∈
        (deployCommand render st path base_url remote none freeze sg cname).2.1 →
      pu = true) ∧
    (freeze = some false →
      Event.deployCall (some (path.getD (Elsa.default_path st)))
          (remote.getD Elsa.DEFAULT_REMOTE) true sg ∈
        (deployCommand render st path base_url remote none freeze sg cname).2.1) := by
  refine ⟨deployCommand_deprecation render st path base_url remote freeze sg cname,
    ?_, ?_⟩
  · intro q rm pu se he
    exact (deployCommand_deployCall render st path base_url remote none freeze
      sg cname q rm pu se he).2.2.1
  · intro hfz
    subst hfz
    unfold deployCommand
    simp

/-- C5 witness: a concrete deploy without the push option and without
freezing warns about the deprecation and pushes. -/
theorem C5_push_defaults_to_true_witness :
    Event.deprecationWarning ∈
      (deployCommand RenderOutcome.ok stEmpty none none none none
        (some false) false none).2.1 ∧
    (∀ q rm pu se, Event.deployCall q rm pu se ∈
        (deployCommand RenderOutcome.ok stEmpty none none none none
          (some false) false none).2.1 →
      pu = true) ∧
    (some false = some false →
      Event.deployCall (some ((none : Option String).getD (Elsa.default_path stEmpty)))
          ((none : Option String).getD Elsa.DEFAULT_REMOTE) true false ∈
        (deployCommand RenderOutcome.ok stEmpty none none none none
          (some false) false none).2.1) :=
  C5_push_defaults_to_true RenderOutcome.ok stEmpty none none none
    (some false) false none

/-- C7: the stderr-visibility flag defaults to suppression in both the
Elsa.deploy method signature and the cli flag, and both layers pass the
given value through unchanged to the publisher. -/
theorem C7_show_err_passthrough_and_default (st : ElsaState)
    (path remote : Option String) (push se : Bool) (render : RenderOutcome)
    (st2 : ElsaState) (p b r : Option String) (pu fr : Option Bool)
    (sg : Bool) (cn : Option Bool) :
    Elsa.deploy_default_show_err = false ∧
    show_git_push_stderr_cli_default = false ∧
    (Elsa.deploy st path remote push se).show_err = se ∧
    (∀ q rm pu2 se2, Event.deployCall q rm pu2 se2 ∈
        (deployCommand render st2 p b r pu fr sg cn).2.1 → se2 = sg) := by
  refine ⟨rfl, rfl, rfl, ?_⟩
  intro q rm pu2 se2 he
  exact (deployCommand_deployCall render st2 p b r pu fr sg cn q rm pu2 se2 he).2.2.2

/-- C7 witness: concrete instantiation of the defaults and the
passthrough. -/
theorem C7_show_err_passthrough_and_default_witness :
    Elsa.deploy_default_show_err = false ∧
    show_git_push_stderr_cli_default = false ∧
    (Elsa.deploy stEmpty none none false false).show_err = false ∧
    (∀ q rm pu2 se2, Event.deployCall q rm pu2 se2 ∈
        (deployCommand RenderOutcome.ok stEmpty none none none none
          (some false) false none).2.1 → se2 = false) :=
  C7_show_err_passthrough_and_default stEmpty none none false false
    RenderOutcome.ok stEmpty none none none none (some false) false none

/-- With no base url option and a falsy instance base url, the freeze
cli command stops at the usage error, producing at most the CNAME
registration. -/
theorem freezeCommand_usage (render : RenderOutcome) (st : ElsaState)
    (path : Option String) (serve : Option Bool) (port : Option Nat)
    (cname : Option Bool) (hb : truthy st.base_url = false) :
    freezeCommand render st path none serve port cname =
      ((if cname.getD true then Elsa.inject_cname st else (st, [])).1,
       (if cname.getD true then Elsa.inject_cname st else (st, [])).2,
       CmdResult.usageError "No base URL provided, use --base-url") := by
  unfold freezeCommand
  simp only [clickOpt, hb]
  rw [if_pos trivial]

/-- With no base url option, a falsy instance base url and freezing in
effect, the deploy cli command stops at the usage error, producing at
most the deprecation warning and the CNAME registration. -/
theorem deployCommand_usage (render : RenderOutcome) (st : ElsaState)
    (path remote : Option String) (push freeze : Option Bool) (sg : Bool)
    (cname : Option Bool) (hb : truthy st.base_url = false)
    (hf : freeze.getD true = true) :
    deployCommand render st path none remote push freeze sg cname =
      ((if cname.getD true then Elsa.inject_cname st else (st, [])).1,
       (match push with
         | none => ((true : Bool), [Event.deprecationWarning])
         | some b => (b, [])).2 ++
         (if cname.getD true then Elsa.inject_cname st else (st, [])).2,
       CmdResult.usageError "No base URL provided, use --base-url") := by
  unfold deployCommand
  simp only [clickOpt, hb, hf]
  rw [if_pos trivial, if_pos trivial]

/-- C8: without a base url option and with no pre-configured instance
base url, the freeze cli command and the deploy cli command with
freezing in effect fail with the usage error, before any rendering and
before any publishing. -/
theorem C8_usage_error_without_base_url (render : RenderOutcome)
    (st : ElsaState) (path remote : Option String) (serve : Option Bool)
    (port : Option Nat) (cname cname2 : Option Bool) (push freeze : Option Bool)
    (sg : Bool) (hb : truthy st.base_url = false)
    (hf : freeze.getD true = true) :
    (freezeCommand render st path none serve port cname).2.2 =
      CmdResult.usageError "No base URL provided, use --base-url" ∧
    Event.freezerFreeze ∉ (freezeCommand render st path none serve port cname).2.1 ∧
    (deployCommand render st path none remote push freeze sg cname2).2.2 =
      CmdResult.usageError "No base URL provided, use --base-url" ∧
    Event.freezerFreeze ∉
      (deployCommand render st path none remote push freeze sg cname2).2.1 ∧
    ∀ q rm pu se, Event.deployCall q rm pu se ∉
      (deployCommand render st path none remote push freeze sg cname2).2.1 := by
  rw [freezeCommand_usage render st path serve port cname hb,
    deployCommand_usage render st path remote push freeze sg cname2 hb hf]
  refine ⟨rfl, ?_, rfl, ?_, ?_⟩
  · rcases Bool.eq_false_or_eq_true (cname.getD true) with hc | hc <;>
      simp [hc, Elsa.inject_cname]
  · rcases Bool.eq_false_or_eq_true (cname2.getD true) with hc | hc <;>
      cases push <;> simp [hc, Elsa.inject_cname]
  · intro q rm pu se
    rcases Bool.eq_false_or_eq_true (cname2.getD true) with hc | hc <;>
      cases push <;> simp [hc, Elsa.inject_cname]

/-- C8 witness: on the unconfigured state both commands fail with the
usage error without rendering or publishing. -/
theorem C8_usage_error_without_base_url_witness :
    (freezeCommand RenderOutcome.ok stEmpty none none none none none).2.2 =
      CmdResult.usageError "No base URL provided, use --base-url" ∧
    Event.freezerFreeze ∉
      (freezeCommand RenderOutcome.ok stEmpty none none none none none).2.1 ∧
    (deployCommand RenderOutcome.ok stEmpty none none none none none false none).2.2 =
      CmdResult.usageError "No base URL provided, use --base-url" ∧
    Event.freezerFreeze ∉
      (deployCommand RenderOutcome.ok stEmpty none none none none none false none).2.1 ∧
    ∀ q rm pu se, Event.deployCall q rm pu se ∉
      (deployCommand RenderOutcome.ok stEmpty none none none none none false none).2.1 :=
  C8_usage_error_without_base_url RenderOutcome.ok stEmpty none none none
    none none none none none false (by decide) (by decide)
